import Mathlib

/-!
Verification of the windsurf-hooker policy-enforcement hooks.

Each hook under `windsurf-hooks/` is a short-lived process that reads a JSON
intercept payload on stdin, loads the policy document, and exits 0 (allow),
1 (internal error / rejected-with-JSON) or 2 (block, with `BLOCKED:` lines on
stderr).  We shallowly embed each hook's `main` as a total Lean function from
the parsed policy document and the parsed intercept payload to a decision
value.  JSON parsing itself (and the exit-1-on-malformed-input paths) is not
modelled: theorems quantify over already-parsed payloads.

External library primitives that the hooks call are modelled as follows:
* Python's `re` module is passed in as explicit function parameters
  (`research` for `re.search`, `refinditer` for `re.finditer`); theorems
  quantify over them, so they hold for every regex semantics.  Regexes whose
  outcome a claim depends on (the word-boundary mutation-intent search, the
  `[{}();,\[\]]+` full match) are implemented concretely.
* `hashlib.sha256(...).hexdigest()` is a parameter `sha : String → String`.
* `str.strip`, `str.lower`, `in` (substring), `startswith`, `endswith`,
  `splitlines` and `json.dumps(..., sort_keys=True)` are implemented
  concretely (`splitlines` is modelled as splitting on `'\n'`; the extra
  trailing empty piece and `'\r'` handling do not affect any counted
  property, since such pieces are never executable lines).
-/

/-- Python whitespace characters recognised by `str.strip()`. -/
def pyWs (c : Char) : Bool :=
  c = ' ' || c = '\t' || c = '\n' || c = '\r' || c = '\x0b' || c = '\x0c'

/-- `str.strip()` on a character list: drop whitespace from both ends. -/
def stripList (l : List Char) : List Char :=
  ((l.dropWhile pyWs).reverse.dropWhile pyWs).reverse

/-- Python `s.strip()`. -/
def pyStrip (s : String) : String :=
  String.mk (stripList s.toList)

/-- Python `s.lower()` (ASCII case folding). -/
def pyLower (s : String) : String :=
  String.mk (s.toList.map Char.toLower)

/-- Is `n` an infix of `h`?  (Python's `n in h` on strings.) -/
def isInfixChars (n : List Char) : List Char → Bool
  | [] => n.isEmpty
  | c :: cs => n.isPrefixOf (c :: cs) || isInfixChars n cs

/-- Python `needle in hay` (substring containment). -/
def strContains (hay needle : String) : Bool :=
  isInfixChars needle.toList hay.toList

/-- Python `s.startswith(p)`. -/
def startsWithStr (s p : String) : Bool :=
  p.toList.isPrefixOf s.toList

/-- Python `s.endswith(p)`. -/
def endsWithStr (s p : String) : Bool :=
  p.toList.isSuffixOf s.toList

/-- Python `s[n:]`. -/
def strDrop (s : String) (n : Nat) : String :=
  String.mk (s.toList.drop n)

/-- Python `s[:n]`. -/
def strTake (s : String) (n : Nat) : String :=
  String.mk (s.toList.take n)

/-- Python `s[a:b]`. -/
def strSlice (s : String) (a b : Nat) : String :=
  String.mk ((s.toList.take b).drop a)

/-- Python `len(s)`. -/
def strLen (s : String) : Nat :=
  s.toList.length

/-- `code[:pos].count("\n") + 1`: the 1-based line number of offset `pos`. -/
def lineOf (code : String) (pos : Nat) : Nat :=
  (code.toList.take pos).count '\n' + 1

/-- Split a character list at `'\n'` (model of `str.splitlines`). -/
def splitLinesAux : List Char → List Char → List (List Char)
  | [], acc => [acc.reverse]
  | c :: cs, acc =>
    if c = '\n' then acc.reverse :: splitLinesAux cs []
    else splitLinesAux cs (c :: acc)

/-- Model of Python `code.splitlines()` (split on `'\n'`). -/
def splitLines (s : String) : List String :=
  (splitLinesAux s.toList []).map String.mk

/-- `sep.join(l)`. -/
def sepJoin (sep : String) : List String → String
  | [] => ""
  | [x] => x
  | x :: y :: xs => x ++ sep ++ sepJoin sep (y :: xs)

/-- Python's `a or b` on strings (`""` is falsy). -/
def orStr (a b : String) : String :=
  if a = "" then b else a

/-- A `re` match object: start offset, end offset, whole match, group 1. -/
structure ReMatch where
  start : Nat
  stop : Nat
  matched : String
  group1 : String
deriving DecidableEq

/-- One element of the payload's `edits` array.  Each field mirrors a JSON
key whose absence is `none` (the hooks apply their own `.get` defaults). -/
structure Edit where
  path : Option String
  old_string : Option String
  new_string : Option String
deriving DecidableEq

/-- The payload's `tool_info` object. -/
structure ToolInfo where
  tool_name : Option String := none
  name : Option String := none
  method : Option String := none
  command : Option String := none
  prompt : Option String := none
  plan : Option String := none
  path : Option String := none
  content : Option String := none
  edits : List Edit := []
deriving DecidableEq

/-- A parsed intercept payload.  `command` is the top-level key consulted by
`pre_run_command_blocklist`; `tool_info` is shared by the other hooks. -/
structure Payload where
  tool_info : ToolInfo := {}
  conversation_context : Option String := none
  command : Option String := none
deriving DecidableEq

/-- The parsed policy document (`policy.json`).  Missing keys are `none` /
empty collections, matching each hook's `.get` defaults.
`prohibited_patterns` keeps only the dict's value lists, in insertion order,
since `pre_write_code_policy` flattens them with `sum(dict.values(), [])`. -/
structure Policy where
  execution_profile : Option String := none
  mcp_tool_allowlist : List String := []
  block_commands_regex : List String := []
  prohibited_patterns : List (List String) := []
  tokens_audit_ok : Option String := none
  tokens_ship_ok : Option String := none

/-- The observable outcome of one hook process: exit code, the strings
printed to stderr (in order; a string may contain embedded newlines exactly
as passed to `print`), and the strings printed to stdout. -/
structure Decision where
  exit : Nat
  err : List String
  out : List String
deriving DecidableEq

/-- `policy.get("execution_profile", "standard")`. -/
def Policy.profile (p : Policy) : String :=
  p.execution_profile.getD "standard"

/-- The allow decision: exit 0, nothing printed. -/
def allowD : Decision := ⟨0, [], []⟩

/-!  ### Hook `pre_run_command_kill_switch`  -/

/-- `main` of `pre_run_command_kill_switch.py` (lines 37-72): in `locked`
profile block everything; in `execution_only` block every command; in any
other profile fall through with exit 0.  Its local `block(msg)` prints `msg`
(which the call sites always begin with `BLOCKED:`) and exits 2. -/
def killSwitchMain (policy : Policy) (payload : Payload) : Decision :=
  if policy.profile = "locked" then
    ⟨2, ["BLOCKED: System is in LOCKED mode (panic button activated).\n  All shell execution and capabilities are revoked.\n  Contact administrator to unlock."], []⟩
  else if policy.profile = "execution_only" then
    ⟨2, ["BLOCKED: Direct command execution is disabled.\n  Reason: Execution-only mode (ATLAS-GATE enforced)\n  Command requested: " ++ pyStrip (payload.tool_info.command.getD "") ++ "\n  Solution: Use atlas_gate.exec to request execution"], []⟩
  else
    allowD

/-!  ### Hook `pre_run_command_blocklist`  -/

/-- `main` of `pre_run_command_blocklist.py` (lines 34-54): reads the
top-level `command` key of the payload; any non-empty command is blocked
unconditionally.  The loaded policy is never consulted (the `policy`
variable in the source is assigned and unused), and an empty command falls
off the end of `main`, so the process exits 0. -/
def blocklistMain (_policy : Policy) (payload : Payload) : Decision :=
  let command := payload.command.getD ""
  if command ≠ "" then
    ⟨2, ["BLOCKED: Shell command execution disabled\n         Command: " ++ command ++ "\n         All operations must use atlas-gate tools only\n         Authorized tools: atlas_gate.write, atlas_gate.read, atlas_gate.exec"], []⟩
  else
    allowD

/-!  ### Hook `pre_write_code_escape_detection`  -/

/-- The hard-coded `ESCAPE_PATTERNS` dict (category → regex list), in source
order. -/
def ESCAPE_PATTERNS : List (String × List String) :=
  [("subprocess", ["subprocess\\.", "import subprocess", "from subprocess"]),
   ("os_execution", ["os\\.system", "os\\.popen", "os\\.execv", "os\\.spawn"]),
   ("direct_execution", ["exec\\(", "eval\\(", "compile\\(", "__import__\\("]),
   ("file_operations", ["open\\(", "\\.write\\(", "\\.read\\(", "Path.*write", "Path.*read"]),
   ("network", ["socket\\.", "import socket", "urllib\\.", "import urllib",
                "requests\\.", "import requests", "httpx\\.", "import httpx"]),
   ("system_access", ["ctypes\\.", "cffi\\.", "ffi\\."]),
   ("shell_wrappers", ["bash -c", "sh -c", "cmd /c", "powershell -Command"])]

/-- One violation record produced by `detect_escape_patterns`. -/
structure EscViolation where
  category : String
  pattern : String
  line : Nat
  snippet : String
  file : String

/-- `detect_escape_patterns(code, path)`: scan `code` against every escape
pattern (`re.finditer` with `IGNORECASE | MULTILINE`, modelled by the
`refinditer` parameter) and collect one violation per match. -/
def detect_escape_patterns (refinditer : String → String → String → List ReMatch)
    (code : String) (path : String) : List EscViolation :=
  ESCAPE_PATTERNS.flatMap fun cp =>
    cp.2.flatMap fun pat =>
      (refinditer "im" pat code).map fun m =>
        ⟨cp.1, pat, lineOf code m.start, m.matched, path⟩

/-- `main` of `pre_write_code_escape_detection.py` (lines 130-177): in
`locked` profile block all code writes; in `execution_only` scan every
edit's new content for escape patterns and block when any violation is
found; otherwise exit 0.  Its `block(msg, details)` prints the fixed line
`BLOCKED: pre_write_code_escape_detection`, then `msg`, then indented
details, and exits 2. -/
def escapeDetectionMain (refinditer : String → String → String → List ReMatch)
    (policy : Policy) (payload : Payload) : Decision :=
  if policy.profile = "locked" then
    ⟨2, ["BLOCKED: pre_write_code_escape_detection",
         "System is in LOCKED mode (panic button activated).",
         "  - All code writes are revoked.",
         "  - Contact administrator to unlock."], []⟩
  else if policy.profile = "execution_only" then
    let all_violations := payload.tool_info.edits.flatMap fun e =>
      detect_escape_patterns refinditer (e.new_string.getD "") (e.path.getD "unknown")
    if all_violations.isEmpty then allowD
    else
      ⟨2, ["BLOCKED: pre_write_code_escape_detection",
           "Code contains escape attempts (execution primitives forbidden in execution_only mode)"]
          ++ all_violations.map (fun v =>
               "  - " ++ v.file ++ ":" ++ toString v.line ++ " (" ++ v.category ++ ") → " ++ v.snippet), []⟩
  else allowD

/-!  ### Hook `pre_mcp_tool_use_atlas_gate`  -/

/-- The required-field table `ATLAS_GATE_OPS` (`none` = unknown operation). -/
def atlasGateRequired : String → Option (List String)
  | "atlas_gate.read" => some ["path"]
  | "atlas_gate.write" => some ["path", "content"]
  | "atlas_gate.exec" => some ["command"]
  | "atlas_gate.stat" => some ["path"]
  | _ => none

/-- `tool.get(field)` for the field names this hook looks up. -/
def toolFieldGet (t : ToolInfo) : String → Option String
  | "path" => t.path
  | "content" => t.content
  | "command" => t.command
  | _ => none

/-- The `block(msg, details)` helper shared by the two MCP hooks: prints
`BLOCKED: <msg>` and one `  - <detail>` line per detail, exits 2. -/
def mcpBlock (msg : String) (details : List String) : Decision :=
  ⟨2, ("BLOCKED: " ++ msg) :: details.map (fun d => "  - " ++ d), []⟩

/-- `validate_atlas_gate_payload(tool_name, tool)` of
`pre_mcp_tool_use_atlas_gate.py` (lines 62-97): unknown op blocks; missing
required fields block; the first required field whose value is `None` or a
whitespace-only string blocks.  Returns `none` when validation passes (the
Python function returns `True`), otherwise the blocking decision. -/
def validateAtlasGatePayload (tool_name : String) (t : ToolInfo) : Option Decision :=
  match atlasGateRequired tool_name with
  | none =>
    some (mcpBlock ("Unknown ATLAS-GATE operation: " ++ tool_name)
      ["Allowed: ['atlas_gate.read', 'atlas_gate.write', 'atlas_gate.exec', 'atlas_gate.stat']"])
  | some req =>
    let missing := req.filter fun f => (toolFieldGet t f).isNone
    if missing ≠ [] then
      some (mcpBlock ("Malformed ATLAS-GATE payload for " ++ tool_name)
        ["Missing required fields: " ++ sepJoin ", " missing,
         "Required: " ++ sepJoin ", " req])
    else
      match req.find? (fun f => match toolFieldGet t f with
                                | none => true
                                | some v => pyStrip v = "") with
      | some f =>
        some (mcpBlock ("ATLAS-GATE field '" ++ f ++ "' is empty or None")
          ["Operation: " ++ tool_name])
      | none => none

/-- The `tool.get("tool_name") or tool.get("name") or tool.get("method") or ""`
chain (Python `or` treats `None` and `""` as falsy). -/
def rawToolName (t : ToolInfo) : String :=
  orStr (t.tool_name.getD "") (orStr (t.name.getD "") (t.method.getD ""))

/-- `main` of `pre_mcp_tool_use_atlas_gate.py` (lines 100-177): block
everything in `locked` profile; require a tool name; require the
`atlas_gate.` prefix; validate the payload shape; require a non-blank
`command` for `atlas_gate.exec` and a non-blank `path` for read/write/stat
(the `".."`/`"~"` inspection in the source deliberately does nothing).
Type-check branches (`isinstance(..., str)`) cannot fire in this model,
where every field is already a string. -/
def mcpAtlasGateMain (policy : Policy) (payload : Payload) : Decision :=
  if policy.profile = "locked" then
    mcpBlock "System is in LOCKED mode (panic button activated)."
      ["All MCP tool access is revoked.", "Contact administrator to unlock."]
  else
    let t := payload.tool_info
    let tool_name := rawToolName t
    if tool_name = "" then
      mcpBlock "No tool specified in payload" []
    else if ¬ startsWithStr tool_name "atlas_gate." then
      mcpBlock "Only ATLAS-GATE tools are permitted"
        ["Tool requested: " ++ tool_name,
         "ATLAS-GATE tools: atlas_gate.read, atlas_gate.write, atlas_gate.exec, atlas_gate.stat",
         "Direct filesystem, command execution, and native tools are disabled",
         "Route all requests through ATLAS-GATE"]
    else
      match validateAtlasGatePayload tool_name t with
      | some d => d
      | none =>
        if tool_name = "atlas_gate.exec" then
          if pyStrip (t.command.getD "") = "" then
            mcpBlock "ATLAS-GATE exec: command cannot be empty" []
          else allowD
        else if tool_name = "atlas_gate.read" ∨ tool_name = "atlas_gate.write" ∨ tool_name = "atlas_gate.stat" then
          if pyStrip (t.path.getD "") = "" then
            mcpBlock ("ATLAS-GATE " ++ tool_name ++ ": path cannot be empty") []
          else allowD
        else allowD

/-!  ### Hook `pre_mcp_tool_use_allowlist`  -/

/-- The resolved, stripped tool name used by `pre_mcp_tool_use_allowlist`
(source lines 58-63). -/
def resolveToolName (t : ToolInfo) : String :=
  pyStrip (rawToolName t)

/-- Rules 3-4 of `pre_mcp_tool_use_allowlist.py` (lines 80-122), reached
once the allowlist check has passed: `mcp_atlas-gate-mcp_begin_session` is
always allowed; every other tool requires the `ATLAS_SESSION_OK` marker in
the conversation context; `mcp_atlas-gate-mcp_write_file` additionally
requires the `ATLAS_PROMPT_UNLOCKED` marker and a non-blank `plan` field
(presence is checked, the hash value is never validated). -/
def atlasMarkerChecks (tool_name ctx plan : String) : Decision :=
  if tool_name = "mcp_atlas-gate-mcp_begin_session" then
    allowD
  else if ¬ strContains ctx "ATLAS_SESSION_OK" then
    mcpBlock "ATLAS session not initialized"
      ["Must call mcp_atlas-gate-mcp_begin_session first",
       "Current tool: " ++ tool_name]
  else if tool_name = "mcp_atlas-gate-mcp_write_file" then
    if ¬ strContains ctx "ATLAS_PROMPT_UNLOCKED" then
      mcpBlock "Prompt not read before write"
        ["Must call mcp_atlas-gate-mcp_read_prompt before write_file"]
    else if plan = "" ∨ pyStrip plan = "" then
      mcpBlock "write_file requires plan hash (BLAKE3)"
        ["Plan hash must be supplied in 'plan' field",
         "Windsurf does not validate hashes; ATLAS-GATE does",
         "If you don't have a plan hash, call mcp_atlas-gate-mcp_list_plans"]
    else allowD
  else allowD

/-- `main` of `pre_mcp_tool_use_allowlist.py` (lines 47-122): require a
non-empty tool name; when `policy.mcp_tool_allowlist` is non-empty, reject
tools outside it; then run the conversation-context marker checks. -/
def mcpAllowlistMain (policy : Policy) (payload : Payload) : Decision :=
  let allowed := policy.mcp_tool_allowlist
  let t := payload.tool_info
  let tool_name := resolveToolName t
  if tool_name = "" then
    mcpBlock "No tool specified in payload" []
  else if allowed ≠ [] ∧ ¬ allowed.contains tool_name then
    mcpBlock ("Tool '" ++ tool_name ++ "' is not permitted")
      ["Only ATLAS-GATE tools are allowed",
       "Tool must begin with 'mcp_atlas-gate-mcp_'",
       "Allowed tools: " ++ toString allowed.length ++ " configured in policy"]
  else
    atlasMarkerChecks tool_name (payload.conversation_context.getD "") (t.plan.getD "")

/-!  ### Hook `pre_write_code_policy`  -/

/-- `COMMENT_PREFIXES` of `pre_write_code_policy.py`. -/
def COMMENT_PREFIXES : List String :=
  ["#", "//", "/*", "*", "--", "<!--", "%"]

/-- `is_comment(line)`: blank or starting with a comment prefix (after
stripping). -/
def is_comment (line : String) : Bool :=
  let s := pyStrip line
  s = "" || COMMENT_PREFIXES.any (fun p => startsWithStr s p)

/-- The character class of `re.fullmatch(r"[{}();,\[\]]+", s)`. -/
def punctChar (c : Char) : Bool :=
  c = '\x7b' || c = '\x7d' || c = '(' || c = ')' || c = ';' || c = ',' || c = '[' || c = ']'

/-- `re.fullmatch(r"[{}();,\[\]]+", s)` is some match iff `s` is non-empty
and consists only of those punctuation characters. -/
def fullmatchPunct (s : String) : Bool :=
  ¬ s.toList.isEmpty && s.toList.all punctChar

/-- `is_executable(line)` of `pre_write_code_policy.py` (lines 35-41):
non-blank, not a comment, not pure punctuation. -/
def is_executable (line : String) : Bool :=
  let s := pyStrip line
  if s = "" || is_comment s then false
  else if fullmatchPunct s then false
  else true

/-- `count_exec(code)` (lines 43-44): the number of executable lines. -/
def count_exec (code : String) : Nat :=
  (splitLines code).countP (fun l => is_executable l)

/-- `pathlib.Path(p).suffix`: the extension of the final path component
(the last `.` must be neither the first nor the last character of the
component's name). -/
def pathSuffix (p : String) : String :=
  let name := (p.toList.reverse.takeWhile (fun c => c ≠ '/')).reverse
  match name.reverse.findIdx? (fun c => c = '.') with
  | none => ""
  | some rj =>
    let i := name.length - 1 - rj
    if 0 < i ∧ i < name.length - 1 then String.mk (name.drop i) else ""

/-- `detect_language(path)` (lines 54-80): extension → language. -/
def detect_language (path : String) : String :=
  let ext := pyLower (pathSuffix path)
  if ext = ".py" then "python"
  else if ext = ".js" then "javascript"
  else if ext = ".ts" then "typescript"
  else if ext = ".jsx" then "javascript"
  else if ext = ".tsx" then "typescript"
  else if ext = ".java" then "java"
  else if ext = ".c" then "c"
  else if ext = ".cpp" then "cpp"
  else if ext = ".cc" then "cpp"
  else if ext = ".cxx" then "cpp"
  else if ext = ".h" then "c"
  else if ext = ".hpp" then "cpp"
  else if ext = ".cs" then "csharp"
  else if ext = ".go" then "go"
  else if ext = ".rs" then "rust"
  else if ext = ".php" then "php"
  else if ext = ".rb" then "ruby"
  else if ext = ".swift" then "swift"
  else if ext = ".kt" then "kotlin"
  else if ext = ".r" then "r"
  else if ext = ".m" then "matlab"
  else "unknown"

/-- The per-edit skip of `pre_write_code_policy.py` line 105: test files,
spec files, and json/md/yaml/yml files are exempt from all checks. -/
def skipEdit (e : Edit) : Bool :=
  let path := e.path.getD "unknown"
  strContains (pyLower path) "test" || strContains (pyLower path) "spec" ||
    endsWithStr path ".json" || endsWithStr path ".md" ||
    endsWithStr path ".yaml" || endsWithStr path ".yml"

/-- Lines 116-122: one violation per `re.finditer` match of each pattern
from the flattened `policy.prohibited_patterns` (flags `IGNORECASE`). -/
def prohibitedViolations (refinditer : String → String → String → List ReMatch)
    (all_prohibited : List String) (new path : String) : List String :=
  all_prohibited.flatMap fun pat =>
    (refinditer "i" pat new).map fun m =>
      "HARD FAIL: Absolute prohibition '" ++ pat ++ "' found in " ++ path ++ ":"
        ++ toString (lineOf new m.start)

/-- Lines 128-157: the language-specific stub/empty-implementation checks,
in source order (python, javascript, java/cpp/csharp, go, rust).  Each
`re.search(p, new, flags)` becomes `research flags p new`. -/
def completenessViolations (research : String → String → String → Option ReMatch)
    (lang new path : String) : List String :=
  (if lang = "python" then
    (if (research "m" "def\\s+\\w+\\s*\\([^)]*\\)\\s*:\\s*(?:pass|\\.\\.\\.|\\.\\.\\.|return|raise NotImplementedError)" new).isSome then
      ["Stub/skeleton function in " ++ path ++ " (not fully implemented)"] else [])
    ++ (if (research "" "return\\s*#.*comment only" new).isSome then
      ["Return with comment-only value in " ++ path] else [])
  else []) ++
  (if lang = "javascript" then
    (if (research "" "(function\\s+\\w+|=>\\s*)\\s*\\\x7b\\s*\\\x7d" new).isSome then
      ["Empty function in " ++ path ++ " (not fully implemented)"] else [])
    ++ (if (research "" "(function|const)\\s+\\w+.*\\\x7b\\s*(?:throw new Error|return|console\\.log|undefined)\\s*\\\x7d" new).isSome then
      ["Stub function in " ++ path] else [])
  else []) ++
  (if lang = "java" ∨ lang = "cpp" ∨ lang = "csharp" then
    (if (research "" "(?:public|private|protected)\\s+\\w+.*\\\x7b\\s*\\\x7d" new).isSome then
      ["Empty method in " ++ path ++ " (not fully implemented)"] else [])
  else []) ++
  (if lang = "go" then
    (if (research "" "func\\s+\\w+.*\\\x7b\\s*(?:return|panic|log\\.Fatal)" new).isSome then
      ["Stub function in " ++ path] else [])
  else []) ++
  (if lang = "rust" then
    (if (research "" "(?:unimplemented|todo)!\\s*\\(" new).isSome then
      ["unimplemented!() or todo!() macro in " ++ path] else [])
  else [])

/-- Lines 163-171: logic preservation.  A drop in executable-line count
(with non-blank new content) or wholesale deletion (non-blank old, blank
new) each append a `HARD FAIL` violation. -/
def logicViolations (old new path : String) : List String :=
  (if count_exec old > 0 ∧ count_exec new < count_exec old ∧ pyStrip new ≠ "" then
    ["HARD FAIL: Logic removal in " ++ path ++ " (" ++ toString (count_exec old) ++ " → "
      ++ toString (count_exec new) ++ " lines)"]
  else []) ++
  (if pyStrip old ≠ "" ∧ pyStrip new = "" then
    ["HARD FAIL: Code completely removed in " ++ path]
  else [])

/-- Lines 174-189: for python edits, every `def` whose body (up to the next
`\ndef`) calls external I/O without `try:`/`except` is flagged. -/
def errorHandlingViolations (research : String → String → String → Option ReMatch)
    (refinditer : String → String → String → List ReMatch)
    (lang new path : String) : List String :=
  if lang = "python" then
    (refinditer "" "def\\s+(\\w+)\\s*\\([^)]*\\)\\s*:" new).flatMap fun f =>
      let func_start := f.stop
      let body_end :=
        match research "" "\\ndef\\s+\\w+" (strDrop new func_start) with
        | some m => func_start + m.start
        | none => strLen new
      let func_body := strSlice new func_start body_end
      if (research "" "(?:open|requests\\.|urllib\\.|json\\.load|os\\.)" func_body).isSome
          ∧ ¬ (research "" "try:|except" func_body).isSome then
        ["Missing error handling in " ++ path ++ " function " ++ f.group1]
      else []
  else []

/-- Lines 195-211: placeholder code, hardcoded demo data, conditionally
disabled code, and unjustified magic numbers. -/
def workingImplViolations (research : String → String → String → Option ReMatch)
    (new path : String) : List String :=
  (if (research "i" "(pass|None|0|\\[\\]|\\\x7b\\\x7d|\\\"\\\")\\s*#.*real" new).isSome then
    ["Placeholder code in " ++ path] else []) ++
  (if (research "i" "(demo_data|test_data|fake_|sample_|mock_)" new).isSome then
    ["Hardcoded test/demo data in " ++ path ++ " (not production code)"] else []) ++
  (if (research "" "if\\s+(False|0|None|\\\"\\\")\\s*:|if\\s+(__debug__|DEBUG|TEST)\\s*:" new).isSome then
    ["Conditionally disabled code in " ++ path] else []) ++
  (if (research "" "(timeout|max|limit|threshold)\\s*=\\s*[0-9]+\\s*#.*" new).isSome then
    (if ¬ (research "" "(timeout|max|limit|threshold)\\s*=\\s*[0-9]+\\s*#.*(?:based|empirical|tested|requirement)" new).isSome then
      ["Magic number without justification in " ++ path] else [])
  else [])

/-- The whole per-edit violation list of `main`'s loop body (lines 98-211),
in source order. -/
def editViolations (research : String → String → String → Option ReMatch)
    (refinditer : String → String → String → List ReMatch)
    (all_prohibited : List String) (e : Edit) : List String :=
  let old := e.old_string.getD ""
  let new := e.new_string.getD ""
  let path := e.path.getD "unknown"
  let lang := detect_language path
  prohibitedViolations refinditer all_prohibited new path
    ++ completenessViolations research lang new path
    ++ logicViolations old new path
    ++ errorHandlingViolations research refinditer lang new path
    ++ workingImplViolations research new path

/-- `main` of `pre_write_code_policy.py` (lines 82-220): flatten the
prohibited-pattern dict, collect violations over every non-skipped edit,
and fail (exit 2, `BLOCKED:` line first on stderr) iff any violation was
collected. -/
def codePolicyMain (research : String → String → String → Option ReMatch)
    (refinditer : String → String → String → List ReMatch)
    (policy : Policy) (payload : Payload) : Decision :=
  let all_prohibited := policy.prohibited_patterns.flatten
  let violations := payload.tool_info.edits.flatMap fun e =>
    if skipEdit e then [] else editViolations research refinditer all_prohibited e
  if violations.isEmpty then allowD
  else
    ⟨2, ["BLOCKED: pre_write_code policy violation",
         "HARD FAIL: Code does not meet specification (must be real, working implementation)\nViolations:"]
        ++ violations.map (fun d => "  • " ++ d), []⟩

/-!  ### Hook `pre_filesystem_write_atlas_enforcement`  -/

/-- `FORBIDDEN_PATHS` (dict in insertion order: pattern → reason). -/
def fsForbiddenPaths : List (String × String) :=
  [(".ssh", "SSH keys/config"), (".aws", "AWS credentials"),
   (".env", "Environment variables"), (".git/config", "Git config"),
   ("/etc", "System configuration"), ("/proc", "System processes"),
   ("/sys", "System kernel"), ("/root", "Root home"),
   ("/var/log", "System logs"), ("build/", "Build artifacts"),
   ("dist/", "Distribution artifacts"), ("node_modules/", "Dependencies")]

/-- `FORBIDDEN_EXTENSIONS` (extension → reason). -/
def fsForbiddenExtensions : List (String × String) :=
  [(".exe", "Executable"), (".dll", "Dynamic library"), (".so", "Shared object"),
   (".bin", "Binary"), (".pyc", "Compiled Python"), (".o", "Object file"),
   (".a", "Static library"), (".iso", "Disk image"), (".dmg", "macOS image"),
   (".jar", "Java archive"), (".whl", "Python wheel (pre-built)")]

/-- `is_forbidden_path(path)` (lines 89-97): first forbidden entry that is a
substring of, or a prefix of, the lowercased path. -/
def is_forbidden_path (path : String) : Option String :=
  let pl := pyLower path
  (fsForbiddenPaths.find? fun fr => strContains pl fr.1 || startsWithStr pl fr.1).map
    fun fr => fr.2 ++ " (" ++ fr.1 ++ ")"

/-- `is_forbidden_extension(path)` (lines 100-106). -/
def is_forbidden_extension (path : String) : Option String :=
  (fsForbiddenExtensions.find? fun er => endsWithStr path er.1).map
    fun er => er.2 ++ " (" ++ er.1 ++ ")"

/-- `is_escape_attempt(path)` (lines 109-123): traversal, absolute path, or
home expansion. -/
def is_escape_attempt (path : String) : Bool :=
  strContains path "../" || strContains path "..\\" ||
    startsWithStr path "/" || startsWithStr path "\\\\" ||
    startsWithStr path "~"

/-- One violation record of `analyze_filesystem_writes`. -/
structure FsViolation where
  vtype : String
  path : String
  reason : String

/-- The violations collected by `analyze_filesystem_writes` (lines 126-193)
for a single edit (paths equal to `""` are skipped by the loop). -/
def fsEditViolations (execution_profile : String) (e : Edit) : List FsViolation :=
  let path := e.path.getD ""
  let content := e.new_string.getD ""
  if path = "" then []
  else
    (match is_forbidden_path path with
     | some r => [⟨"forbidden_path", path, r⟩]
     | none => []) ++
    (match is_forbidden_extension path with
     | some r => [⟨"forbidden_extension", path, r⟩]
     | none => []) ++
    (if is_escape_attempt path then
      [⟨"escape_attempt", path, "Path escape detected (../, absolute path, or ~)"⟩]
     else []) ++
    (if execution_profile = "execution_only" ∧ path ≠ "" ∧ content ≠ "" then
      [⟨"execution_only_violation", path,
        "Direct filesystem write not allowed in execution-only mode (use atlas_gate.write)"⟩]
     else [])

/-- `main` of `pre_filesystem_write_atlas_enforcement.py` (lines 196-228):
block everything in `locked` profile; otherwise block iff
`analyze_filesystem_writes` collected any violation.  Its `block` prints the
fixed `BLOCKED: pre_filesystem_write_atlas_enforcement` line first. -/
def fsAtlasEnforcementMain (policy : Policy) (payload : Payload) : Decision :=
  if policy.profile = "locked" then
    ⟨2, ["BLOCKED: pre_filesystem_write_atlas_enforcement",
         "System is in LOCKED mode (panic button activated).",
         "  - All filesystem writes are revoked.",
         "  - Contact administrator to unlock."], []⟩
  else
    let violations := payload.tool_info.edits.flatMap
      (fsEditViolations policy.profile)
    if violations.isEmpty then allowD
    else
      ⟨2, ["BLOCKED: pre_filesystem_write_atlas_enforcement",
           "Filesystem write policy violation"]
          ++ violations.map (fun v => "  - " ++ v.path ++ ": " ++ v.reason ++ " (" ++ v.vtype ++ ")"), []⟩

/-!  ### Hook `pre_session_state_enforcement`  -/

/-- The `allowed_tools` set of `pre_session_state_enforcement.py`
(lines 83-90). -/
def sessionAllowedTools : List String :=
  ["begin_session", "end_session",
   "list_plans", "read_plan", "lint_plan", "bootstrap_create_foundation_plan",
   "read_prompt", "read_file", "write_file", "read_audit_log",
   "replay_execution", "verify_workspace_integrity",
   "generate_attestation_bundle", "verify_attestation_bundle",
   "export_attestation_bundle"]

/-- The JSON object printed to stdout by `pre_session_state_enforcement`,
together with its exit code and the state-file content after the run. -/
structure SessDecision where
  status : String
  reason : Option String
  new_state : Option String
  exit : Nat
  stateAfter : Option String

/-- `get_session_state()`: the state-file content, stripped, defaulting to
`INIT` when the file is absent. -/
def parseSessionState (stored : Option String) : String :=
  (stored.map pyStrip).getD "INIT"

/-- `main` of `pre_session_state_enforcement.py` (lines 48-124):
the session state machine.  `stored` models the state-file content
(`none` = file absent), `toolName` the payload's `tool_name` key
(default `"unknown"`).  In `INIT` only `begin_session` is allowed and
writes `ACTIVE`; in `ACTIVE` the fixed whitelist is allowed and
`end_session` writes `CLOSED`; in `CLOSED` everything is rejected; an
unrecognised state yields an error.  Rejections exit 1 with a JSON
`status: rejected` object on stdout. -/
def sessionMain (stored : Option String) (toolName : Option String) : SessDecision :=
  let tool := toolName.getD "unknown"
  let state := parseSessionState stored
  if state = "INIT" then
    if tool ≠ "begin_session" then
      ⟨"rejected", some "Session not initialized. Call begin_session first.", none, 1, stored⟩
    else
      ⟨"allowed", none, some "ACTIVE", 0, some "ACTIVE"⟩
  else if state = "ACTIVE" then
    if tool = "end_session" then
      ⟨"allowed", none, some "CLOSED", 0, some "CLOSED"⟩
    else if sessionAllowedTools.contains tool then
      ⟨"allowed", none, none, 0, stored⟩
    else
      ⟨"rejected", some ("Tool not in execution whitelist: " ++ tool), none, 1, stored⟩
  else if state = "CLOSED" then
    ⟨"rejected", some "Session closed. No further operations allowed.", none, 1, stored⟩
  else
    ⟨"error", some ("Unknown session state: " ++ state), none, 1, stored⟩

/-!  ### Hook `pre_plan_immutability_enforcement`  -/

/-- A parsed Python/JSON value as handled by `compute_plan_hash`
(floats are not modelled; no claim involves them). -/
inductive PyValue where
  | pstr : String → PyValue
  | pint : Int → PyValue
  | pbool : Bool → PyValue
  | pnone : PyValue
  | plist : List PyValue → PyValue
  | pdict : List (String × PyValue) → PyValue

/-- Python truthiness of a value (`if not plan:`). -/
def pyTruthy : PyValue → Bool
  | .pstr s => s ≠ ""
  | .pint n => n ≠ 0
  | .pbool b => b
  | .pnone => false
  | .plist xs => ¬ xs.isEmpty
  | .pdict d => ¬ d.isEmpty

/-- `json.dumps` escaping of one string character (control characters other
than `\n`, `\t`, `\r` and the non-ASCII `\uXXXX` escapes are not modelled;
no claim involves them). -/
def jsonEscapeChar (c : Char) : String :=
  if c = '"' then "\\\""
  else if c = '\\' then "\\\\"
  else if c = '\n' then "\\n"
  else if c = '\t' then "\\t"
  else if c = '\r' then "\\r"
  else String.mk [c]

/-- `json.dumps` escaping of a string body. -/
def jsonEscape (s : String) : String :=
  String.join (s.toList.map jsonEscapeChar)

/-- Ordering of serialised dict entries by key, as produced by
`json.dumps(..., sort_keys=True)`. -/
def pairKeyLe (a b : String × String) : Prop := a.1 ≤ b.1

instance : DecidableRel pairKeyLe := fun a b =>
  inferInstanceAs (Decidable (a.1 ≤ b.1))

instance : IsTotal (String × String) pairKeyLe := ⟨fun a b => le_total a.1 b.1⟩

instance : IsTrans (String × String) pairKeyLe := ⟨fun _ _ _ h1 h2 => le_trans h1 h2⟩

/-- Sort serialised dict entries by key. -/
def sortPairs (l : List (String × String)) : List (String × String) :=
  l.insertionSort pairKeyLe

/-- Render one sorted dict entry as `"key": value`. -/
def renderKV (kv : String × String) : String :=
  "\"" ++ jsonEscape kv.1 ++ "\": " ++ kv.2

mutual
/-- `json.dumps(v, sort_keys=True)` with the default separators
`", "` / `": "`: dict keys are sorted (recursively) before serialisation. -/
def dumpsSorted : PyValue → String
  | .pstr s => "\"" ++ jsonEscape s ++ "\""
  | .pint n => toString n
  | .pbool b => if b then "true" else "false"
  | .pnone => "null"
  | .plist xs => "[" ++ sepJoin ", " (dumpsEach xs) ++ "]"
  | .pdict d => "\x7b" ++ sepJoin ", " ((sortPairs (dumpsPairs d)).map renderKV) ++ "\x7d"

/-- Serialise each list element. -/
def dumpsEach : List PyValue → List String
  | [] => []
  | v :: vs => dumpsSorted v :: dumpsEach vs

/-- Serialise each dict value, keeping its key. -/
def dumpsPairs : List (String × PyValue) → List (String × String)
  | [] => []
  | kv :: rest => (kv.1, dumpsSorted kv.2) :: dumpsPairs rest
end

mutual
/-- Python `repr(v)` for the values modelled here (string-escape details
simplified; no claim depends on them). -/
def pyRepr : PyValue → String
  | .pstr s => "'" ++ s ++ "'"
  | .pint n => toString n
  | .pbool b => if b then "True" else "False"
  | .pnone => "None"
  | .plist xs => "[" ++ sepJoin ", " (pyReprEach xs) ++ "]"
  | .pdict d => "\x7b" ++ sepJoin ", " (pyReprPairs d) ++ "\x7d"

/-- `repr` of each list element. -/
def pyReprEach : List PyValue → List String
  | [] => []
  | v :: vs => pyRepr v :: pyReprEach vs

/-- `repr` of each dict entry. -/
def pyReprPairs : List (String × PyValue) → List String
  | [] => []
  | kv :: rest => ("'" ++ kv.1 ++ "': " ++ pyRepr kv.2) :: pyReprPairs rest
end

/-- Python `str(v)`. -/
def pyStr : PyValue → String
  | .pstr s => s
  | v => pyRepr v

/-- The string handed to `hashlib.sha256` by `compute_plan_hash`
(lines 25-34): dicts are dumped with sorted keys, strings pass through,
anything else goes through `str()`. -/
def serializePlan : PyValue → String
  | .pdict d => dumpsSorted (.pdict d)
  | .pstr s => s
  | v => pyStr v

/-- `compute_plan_hash(plan_content)`: SHA-256 hexdigest (the hash function
itself is the external `hashlib` primitive, passed as `sha`). -/
def compute_plan_hash (sha : String → String) (p : PyValue) : String :=
  sha (serializePlan p)

/-- The parsed stdin of `pre_plan_immutability_enforcement`. -/
structure PlanInput where
  plan : Option PyValue
  action : Option String
  step_index : Nat := 0

/-- The JSON object printed by `pre_plan_immutability_enforcement`, its
exit code, and the stored plan hash after the run.  `stored` models the
value of `/tmp/windsurf_plan_hash` (`none` = absent; the `.strip()` on
read is dropped because the `hexdigest()` output the hook itself writes
never carries surrounding whitespace). -/
structure PlanResult where
  status : String
  reason : Option String
  action_out : Option String
  plan_hash : Option String
  plan_hash_verified : Option String
  expected_hash : Option String
  current_hash : Option String
  step : Option Nat
  exit : Nat
  stored : Option String

/-- `main` of `pre_plan_immutability_enforcement.py` (lines 64-136): missing
or falsy plan is an error; `init` stores the computed hash (overwriting any
existing one, with an audit note); `verify` rejects when no hash is stored,
rejects reporting both hashes when the current hash differs from the stored
one, and allows otherwise; unknown actions are errors. -/
def planMain (sha : String → String) (stored : Option String) (input : PlanInput) :
    PlanResult :=
  let action := input.action.getD "verify"
  let planFalsy := match input.plan with
    | none => true
    | some p => ¬ pyTruthy p
  if planFalsy then
    ⟨"error", some "No plan provided", none, none, none, none, none, none, 1, stored⟩
  else
    let p := input.plan.getD .pnone
    let current := compute_plan_hash sha p
    if action = "init" then
      ⟨"allowed", none, some "plan_hash_initialized", some current, none, none, none,
        some input.step_index, 0, some current⟩
    else if action = "verify" then
      match stored with
      | none =>
        ⟨"rejected", some "Plan not initialized. Call with action=init first.", none,
          none, none, none, none, some input.step_index, 1, stored⟩
      | some sh =>
        if current ≠ sh then
          ⟨"rejected", some "Plan has been modified since execution started", none,
            none, none, some sh, some current, some input.step_index, 1, stored⟩
        else
          ⟨"allowed", none, none, none, some current, none, none,
            some input.step_index, 0, stored⟩
    else
      ⟨"error", some ("Unknown action: " ++ action), none, none, none, none, none,
        none, 1, stored⟩

/-!  ### Hook `pre_user_prompt_gate`  -/

/-- The mutation-keyword alternation of `detect_mutation_intent`
(`pre_user_prompt_gate.py` lines 34-49), all lowercase. -/
def MUTATION_KEYWORDS : List String :=
  ["implement", "write", "generate", "edit", "refactor", "add", "create",
   "patch", "modify", "change", "update"]

/-- A regex word character (`\w`, ASCII simplification). -/
def isWordChar (c : Char) : Bool :=
  c.isAlphanum || c = '_'

/-- Does keyword `kw` match `text` at offset `i` with `\b` boundaries on
both sides, case-insensitively? -/
def matchesKeywordAt (text : List Char) (i : Nat) (kw : List Char) : Bool :=
  ((text.drop i).take kw.length).map Char.toLower = kw
    && (match i with
        | 0 => true
        | j + 1 => ¬ isWordChar (text.getD j ' '))
    && (i + kw.length ≥ text.length || ¬ isWordChar (text.getD (i + kw.length) ' '))

/-- `detect_mutation_intent(prompt)`:
`re.search(r"\b(implement|write|...|update)\b", prompt, re.IGNORECASE)` is
some match iff some keyword occurs at some offset with word boundaries. -/
def detect_mutation_intent (prompt : String) : Bool :=
  let cs := prompt.toList
  (List.range (cs.length + 1)).any fun i =>
    MUTATION_KEYWORDS.any fun kw => matchesKeywordAt cs i kw.toList

/-- The JSON object printed by `pre_user_prompt_gate` plus its exit code.
`plan_reference` is `some none` when the key is present with value `null`. -/
structure GateOutput where
  exit : Nat
  mutation_requested : Bool
  plan_reference : Option (Option String)
  marker : Option String

/-- `main` of `pre_user_prompt_gate.py` (lines 87-119): annotation only.
It detects mutation intent, extracts a plan reference (the four
`extract_plan_reference` regexes are the parameter `extract`), prints the
marker object on stdout, and always exits 0 — it never blocks and never
reads the policy or its tokens. -/
def promptGateMain (extract : String → Option String) (payload : Payload) :
    GateOutput :=
  let prompt := payload.tool_info.prompt.getD ""
  let is_mutation := detect_mutation_intent prompt
  let plan_ref := extract prompt
  if is_mutation then
    match plan_ref with
    | some r => ⟨0, true, some (some r), some ("ATLAS_PLAN_REQUESTED=" ++ r)⟩
    | none => ⟨0, true, some none, some "ATLAS_MUTATION_NO_PLAN"⟩
  else
    ⟨0, false, none, none⟩

/-!  ## Supporting lemmas  -/

/-- Membership survives `dropWhile`. -/
theorem mem_of_mem_dropWhile' {p : Char → Bool} {l : List Char} {c : Char}
    (h : c ∈ l.dropWhile p) : c ∈ l := by
  have h2 : c ∈ l.takeWhile p ++ l.dropWhile p := List.mem_append.mpr (Or.inr h)
  rwa [List.takeWhile_append_dropWhile] at h2

/-- A stripped character list is empty iff every character is whitespace. -/
theorem stripList_eq_nil_iff {l : List Char} :
    stripList l = [] ↔ ∀ c ∈ l, pyWs c = true := by
  unfold stripList
  rw [List.reverse_eq_nil_iff, List.dropWhile_eq_nil_iff]
  constructor
  · intro h c hc
    have hc2 : c ∈ l.takeWhile pyWs ++ l.dropWhile pyWs := by
      rw [List.takeWhile_append_dropWhile]; exact hc
    rcases List.mem_append.mp hc2 with h1 | h1
    · exact List.mem_takeWhile_imp h1
    · exact h c (List.mem_reverse.mpr h1)
  · intro h c hc
    exact h c (mem_of_mem_dropWhile' (List.mem_reverse.mp hc))

/-- `pyStrip s = ""` iff `s` is all whitespace. -/
theorem pyStrip_eq_empty_iff {s : String} :
    pyStrip s = "" ↔ ∀ c ∈ s.toList, pyWs c = true := by
  constructor
  · intro h
    exact stripList_eq_nil_iff.mp (congrArg String.data h)
  · intro h
    show String.mk (stripList s.toList) = ""
    rw [stripList_eq_nil_iff.mpr h]

/-- Every piece produced by `splitLinesAux` from all-whitespace input is
all-whitespace. -/
theorem splitLinesAux_all_ws :
    ∀ (cs acc : List Char), (∀ c ∈ cs, pyWs c = true) → (∀ c ∈ acc, pyWs c = true) →
      ∀ p ∈ splitLinesAux cs acc, ∀ c ∈ p, pyWs c = true := by
  intro cs
  induction cs with
  | nil =>
    intro acc _ hacc p hp c hc
    simp only [splitLinesAux, List.mem_singleton] at hp
    exact hacc c (List.mem_reverse.mp (hp ▸ hc))
  | cons d ds ih =>
    intro acc hcs hacc p hp c hc
    simp only [splitLinesAux] at hp
    by_cases hd : d = '\n'
    · rw [if_pos hd] at hp
      rcases List.mem_cons.mp hp with h1 | h1
      · exact hacc c (List.mem_reverse.mp (h1 ▸ hc))
      · exact ih [] (fun x hx => hcs x (List.mem_cons_of_mem d hx)) (by simp) p h1 c hc
    · rw [if_neg hd] at hp
      refine ih (d :: acc) (fun x hx => hcs x (List.mem_cons_of_mem d hx)) ?_ p hp c hc
      intro x hx
      rcases List.mem_cons.mp hx with h1 | h1
      · exact h1 ▸ hcs d (List.mem_cons_self d ds)
      · exact hacc x h1

/-- A positive executable-line count forces some non-whitespace content: if
`count_exec s > 0` then `s.strip()` is non-empty. -/
theorem pyStrip_ne_empty_of_count_exec_pos {s : String} (h : 0 < count_exec s) :
    pyStrip s ≠ "" := by
  intro heq
  have hws : ∀ c ∈ s.toList, pyWs c = true := pyStrip_eq_empty_iff.mp heq
  have hzero : count_exec s = 0 := by
    unfold count_exec
    refine List.countP_eq_zero.mpr ?_
    intro line hline
    simp only [splitLines, List.mem_map] at hline
    obtain ⟨p, hp, rfl⟩ := hline
    have hpws : ∀ c ∈ p, pyWs c = true :=
      splitLinesAux_all_ws s.toList [] hws (by simp) p hp
    have hstrip : pyStrip (String.mk p) = "" := by
      refine pyStrip_eq_empty_iff.mpr ?_
      intro c hc
      exact hpws c hc
    simp [is_executable, hstrip]
  omega

/-- A member with a non-empty image makes `flatMap` non-empty. -/
theorem flatMap_ne_nil_of_mem {α β : Type} {l : List α} {f : α → List β} {a : α}
    (ha : a ∈ l) (hf : f a ≠ []) : l.flatMap f ≠ [] := by
  obtain ⟨b, hb⟩ := List.exists_mem_of_ne_nil (f a) hf
  exact List.ne_nil_of_mem (List.mem_flatMap.mpr ⟨a, ha, hb⟩)

/-- `"BLOCKED:"` is a prefix of `"BLOCKED: " ++ m` for every `m`. -/
theorem startsWith_blocked_append (m : String) :
    startsWithStr ("BLOCKED: " ++ m) "BLOCKED:" = true := by
  unfold startsWithStr
  rw [List.isPrefixOf_iff_prefix]
  show "BLOCKED:".data <+: ("BLOCKED: " ++ m).data
  have : ("BLOCKED: " ++ m).data = "BLOCKED:".data ++ (' ' :: m.data) := rfl
  rw [this]
  exact List.prefix_append _ _

/-!  ## Claims  -/

/-- A policy document whose `execution_profile` is `locked`. -/
def lockedPolicy : Policy := { execution_profile := some "locked" }

/-- C1: with `execution_profile = locked`, every modelled hook of the four
mutating/executing interception points — `pre_run_command`
(`pre_run_command_kill_switch`), `pre_write_code`
(`pre_write_code_escape_detection`), `pre_filesystem_write`
(`pre_filesystem_write_atlas_enforcement`) and `pre_mcp_tool_use`
(`pre_mcp_tool_use_atlas_gate`) — exits 2 for every intercept payload. -/
theorem locked_blocks_every_mutating_point
    (policy : Policy) (h : policy.profile = "locked") (payload : Payload)
    (refinditer : String → String → String → List ReMatch) :
    (killSwitchMain policy payload).exit = 2 ∧
    (escapeDetectionMain refinditer policy payload).exit = 2 ∧
    (fsAtlasEnforcementMain policy payload).exit = 2 ∧
    (mcpAtlasGateMain policy payload).exit = 2 := by
  refine ⟨?_, ?_, ?_, ?_⟩ <;>
    simp [killSwitchMain, escapeDetectionMain, fsAtlasEnforcementMain,
      mcpAtlasGateMain, mcpBlock, h]

/-- Witness for C1 at a concrete locked policy and the empty payload. -/
theorem locked_blocks_every_mutating_point_witness :
    lockedPolicy.profile = "locked" ∧
    (killSwitchMain lockedPolicy {}).exit = 2 ∧
    (escapeDetectionMain (fun _ _ _ => []) lockedPolicy {}).exit = 2 ∧
    (fsAtlasEnforcementMain lockedPolicy {}).exit = 2 ∧
    (mcpAtlasGateMain lockedPolicy {}).exit = 2 :=
  ⟨rfl, locked_blocks_every_mutating_point lockedPolicy rfl {} (fun _ _ _ => [])⟩

/-- C2: the session state machine is gated and monotone.  In `INIT` exactly
`begin_session` is accepted and moves the state to `ACTIVE`; in `ACTIVE`
exactly the whitelist is accepted and `end_session` moves the state to
`CLOSED`; in `CLOSED` every tool is rejected; and no invocation ever moves
the parsed state backwards along `INIT → ACTIVE → CLOSED` (unrecognised
states are left unchanged). -/
theorem session_state_machine_gated_monotone :
    (∀ t : Option String,
      (sessionMain (some "INIT") t).exit = 0 ↔ t.getD "unknown" = "begin_session") ∧
    (sessionMain (some "INIT") (some "begin_session")).stateAfter = some "ACTIVE" ∧
    (∀ t : Option String,
      (sessionMain (some "ACTIVE") t).exit = 0 ↔
        sessionAllowedTools.contains (t.getD "unknown") = true) ∧
    (sessionMain (some "ACTIVE") (some "end_session")).stateAfter = some "CLOSED" ∧
    (∀ t : Option String,
      (sessionMain (some "CLOSED") t).status = "rejected" ∧
      (sessionMain (some "CLOSED") t).exit = 1) ∧
    (∀ (s t : Option String),
      parseSessionState ((sessionMain s t).stateAfter) = parseSessionState s ∨
      (parseSessionState s = "INIT" ∧
        parseSessionState ((sessionMain s t).stateAfter) = "ACTIVE") ∨
      (parseSessionState s = "ACTIVE" ∧
        parseSessionState ((sessionMain s t).stateAfter) = "CLOSED")) := by
  have hInit : parseSessionState (some "INIT") = "INIT" := by decide
  have hActive : parseSessionState (some "ACTIVE") = "ACTIVE" := by decide
  have hClosed : parseSessionState (some "CLOSED") = "CLOSED" := by decide
  refine ⟨?_, ?_, ?_, ?_, ?_, ?_⟩
  · intro t
    by_cases h : t.getD "unknown" = "begin_session" <;>
      simp [sessionMain, hInit, h]
  · simp [sessionMain, hInit]
  · intro t
    by_cases he : t.getD "unknown" = "end_session"
    · simp [sessionMain, hActive, he]
      decide
    · by_cases hm : t.getD "unknown" ∈ sessionAllowedTools <;>
        simp [sessionMain, hActive, he, hm]
  · simp [sessionMain, hActive]
  · intro t
    simp [sessionMain, hClosed]
  · intro s t
    unfold sessionMain
    by_cases h1 : parseSessionState s = "INIT"
    · rw [if_pos h1]
      by_cases h2 : (t.getD "unknown") ≠ "begin_session"
      · rw [if_pos h2]; exact Or.inl rfl
      · rw [if_neg h2]; exact Or.inr (Or.inl ⟨h1, hActive⟩)
    · rw [if_neg h1]
      by_cases h2 : parseSessionState s = "ACTIVE"
      · rw [if_pos h2]
        by_cases h3 : (t.getD "unknown") = "end_session"
        · rw [if_pos h3]; exact Or.inr (Or.inr ⟨h2, hClosed⟩)
        · rw [if_neg h3]
          by_cases h4 : sessionAllowedTools.contains (t.getD "unknown") = true
          · rw [if_pos h4]; exact Or.inl rfl
          · rw [if_neg h4]; exact Or.inl rfl
      · rw [if_neg h2]
        by_cases h3 : parseSessionState s = "CLOSED"
        · rw [if_pos h3]; exact Or.inl rfl
        · rw [if_neg h3]; exact Or.inl rfl

/-- Witness for C2 on concrete inputs: `read_file` is rejected in `INIT`,
`begin_session` is accepted and activates, `end_session` closes, and a tool
in `CLOSED` is rejected. -/
theorem session_state_machine_gated_monotone_witness :
    (sessionMain (some "INIT") (some "read_file")).exit = 1 ∧
    (sessionMain (some "INIT") (some "begin_session")).stateAfter = some "ACTIVE" ∧
    (sessionMain (some "ACTIVE") (some "end_session")).stateAfter = some "CLOSED" ∧
    (sessionMain (some "CLOSED") (some "read_file")).status = "rejected" := by
  have h := session_state_machine_gated_monotone
  refine ⟨?_, h.2.1, h.2.2.2.1, (h.2.2.2.2.1 (some "read_file")).1⟩
  have h1 := (h.1 (some "read_file")).not.mpr (by decide)
  revert h1
  decide

/-- A policy that configures both acknowledgement tokens, as in C3's
premise.  `pre_user_prompt_gate` never reads it. -/
def tokensPolicy : Policy :=
  { tokens_audit_ok := some "AUDIT-OK-TOKEN", tokens_ship_ok := some "SHIP-OK-TOKEN" }

/-- A prompt with mutation intent that contains neither token. -/
def mutationPrompt : String := "Please implement the login flow"

/-- Counterexample to C3: with both tokens configured and a prompt that
expresses mutation intent (it contains the verb `implement`) but carries no
`audit_ok` token, the prompt gate still exits 0 — it never blocks, because
`pre_user_prompt_gate.main` contains no token check at all. -/
theorem prompt_gate_token_claim_counterexample :
    detect_mutation_intent mutationPrompt = true ∧
    strContains mutationPrompt "AUDIT-OK-TOKEN" = false ∧
    tokensPolicy.tokens_audit_ok = some "AUDIT-OK-TOKEN" ∧
    tokensPolicy.tokens_ship_ok = some "SHIP-OK-TOKEN" ∧
    (promptGateMain (fun _ => none)
      { tool_info := { prompt := some mutationPrompt } }).exit = 0 := by
  refine ⟨by decide, by decide, rfl, rfl, ?_⟩
  decide

/-- C3 (amended): the prompt gate never blocks.  For every plan-reference
extractor and every payload it exits 0, and its `mutation_requested` output
is exactly `detect_mutation_intent` of the prompt; the configured tokens
are never consulted (the hook takes no policy input at all). -/
theorem prompt_gate_never_blocks
    (extract : String → Option String) (payload : Payload) :
    (promptGateMain extract payload).exit = 0 ∧
    (promptGateMain extract payload).mutation_requested =
      detect_mutation_intent (payload.tool_info.prompt.getD "") := by
  unfold promptGateMain
  cases h : detect_mutation_intent (payload.tool_info.prompt.getD "")
  · simp [h]
  · rcases hx : extract (payload.tool_info.prompt.getD "") with _ | r <;> simp [h, hx]

/-- A policy document in the `standard` execution profile with an empty
`block_commands_regex` list. -/
def standardPolicy : Policy := { execution_profile := some "standard" }

/-- Counterexample to C4: in the `standard` profile with
`block_commands_regex = []` no pattern matches `"ls"`, so the claim
predicts exit 0 — but `pre_run_command_blocklist` blocks it (exit 2): the
hook never consults `block_commands_regex`. -/
theorem blocklist_regex_claim_counterexample :
    standardPolicy.profile = "standard" ∧
    standardPolicy.block_commands_regex = [] ∧
    (blocklistMain standardPolicy { command := some "ls" }).exit = 2 := by
  refine ⟨rfl, rfl, ?_⟩
  decide

/-- C4 (amended): in the `standard` profile the kill-switch hook allows
every payload, and the blocklist hook blocks exactly the payloads whose
top-level `command` string is non-empty — independently of
`policy.block_commands_regex` (it ignores the policy entirely). -/
theorem standard_profile_blocklist_behaviour
    (policy : Policy) (h : policy.profile = "standard") (payload : Payload) :
    (killSwitchMain policy payload).exit = 0 ∧
    ((blocklistMain policy payload).exit = 2 ↔ payload.command.getD "" ≠ "") ∧
    ((blocklistMain policy payload).exit = 0 ↔ payload.command.getD "" = "") ∧
    (∀ policy2 : Policy, blocklistMain policy2 payload = blocklistMain policy payload) := by
  refine ⟨?_, ?_, ?_, fun policy2 => rfl⟩
  · simp [killSwitchMain, h, allowD]
  · by_cases hc : payload.command.getD "" = "" <;> simp [blocklistMain, hc, allowD]
  · by_cases hc : payload.command.getD "" = "" <;> simp [blocklistMain, hc, allowD]

/-- Witness for the amended C4 at the concrete standard policy: `"ls"` is
blocked, the empty command is allowed. -/
theorem standard_profile_blocklist_behaviour_witness :
    (killSwitchMain standardPolicy { command := some "ls" }).exit = 0 ∧
    (blocklistMain standardPolicy { command := some "ls" }).exit = 2 ∧
    (blocklistMain standardPolicy {}).exit = 0 := by
  have h1 := standard_profile_blocklist_behaviour standardPolicy rfl { command := some "ls" }
  have h2 := standard_profile_blocklist_behaviour standardPolicy rfl {}
  exact ⟨h1.1, h1.2.1.mpr (by decide), h2.2.2.1.mpr rfl⟩

/-- A policy whose MCP allowlist holds only `begin_session`. -/
def beginOnlyPolicy : Policy :=
  { mcp_tool_allowlist := ["mcp_atlas-gate-mcp_begin_session"] }

/-- Counterexample to C5, two concrete runs of `pre_mcp_tool_use_allowlist`:
(1) with a non-empty allowlist, a tool outside it and no `ATLAS_SESSION_OK`
marker is blocked with the `not permitted` message — no stderr line mentions
`session not initialized`, contradicting the claimed stderr; (2) a
`write_file` whose `plan` field is the non-empty string `" "` is still
blocked even though both markers are present, contradicting the claimed
presence-only reading of "non-empty". -/
theorem mcp_marker_claim_counterexample :
    ((mcpAllowlistMain beginOnlyPolicy
        { tool_info := { tool_name := some "mcp_atlas-gate-mcp_read_file" } }).exit = 2 ∧
     (mcpAllowlistMain beginOnlyPolicy
        { tool_info := { tool_name := some "mcp_atlas-gate-mcp_read_file" } }).err.all
        (fun s => ¬ strContains s "session not initialized") = true) ∧
    ((mcpAllowlistMain {}
        { tool_info := { tool_name := some "mcp_atlas-gate-mcp_write_file",
                         plan := some " " },
          conversation_context := some "ATLAS_SESSION_OK ATLAS_PROMPT_UNLOCKED" }).exit = 2 ∧
     (" " : String) ≠ "") := by
  refine ⟨⟨?_, ?_⟩, ⟨?_, ?_⟩⟩ <;> decide

/-- C5 (amended): at `pre_mcp_tool_use`, for every tool whose resolved name
is non-empty, passes the allowlist check, and is not
`mcp_atlas-gate-mcp_begin_session`: when the conversation context lacks
`ATLAS_SESSION_OK` the hook exits 2 with first stderr line
`BLOCKED: ATLAS session not initialized`; and when the marker is present
and the tool is `mcp_atlas-gate-mcp_write_file`, the hook allows iff the
context contains `ATLAS_PROMPT_UNLOCKED` and the `plan` field is non-blank
(non-empty after stripping whitespace; its value is never validated). -/
theorem mcp_session_and_plan_gate
    (policy : Policy) (payload : Payload)
    (h1 : resolveToolName payload.tool_info ≠ "")
    (h2 : policy.mcp_tool_allowlist = [] ∨
      policy.mcp_tool_allowlist.contains (resolveToolName payload.tool_info) = true)
    (h3 : resolveToolName payload.tool_info ≠ "mcp_atlas-gate-mcp_begin_session") :
    (strContains (payload.conversation_context.getD "") "ATLAS_SESSION_OK" = false →
      (mcpAllowlistMain policy payload).exit = 2 ∧
      (mcpAllowlistMain policy payload).err.head? =
        some "BLOCKED: ATLAS session not initialized") ∧
    (strContains (payload.conversation_context.getD "") "ATLAS_SESSION_OK" = true →
      resolveToolName payload.tool_info = "mcp_atlas-gate-mcp_write_file" →
      ((mcpAllowlistMain policy payload).exit = 0 ↔
        (strContains (payload.conversation_context.getD "") "ATLAS_PROMPT_UNLOCKED" = true ∧
         pyStrip (payload.tool_info.plan.getD "") ≠ ""))) := by
  have hmain : mcpAllowlistMain policy payload =
      atlasMarkerChecks (resolveToolName payload.tool_info)
        (payload.conversation_context.getD "") (payload.tool_info.plan.getD "") := by
    unfold mcpAllowlistMain
    rw [if_neg h1]
    rcases h2 with h2 | h2
    · rw [if_neg]
      simp [h2]
    · rw [if_neg]
      simp only [not_and, not_not]
      intro _
      simpa using h2
  rw [hmain]
  constructor
  · intro hctx
    unfold atlasMarkerChecks
    rw [if_neg h3, if_pos (by simp [hctx])]
    exact ⟨rfl, rfl⟩
  · intro hctx hwf
    unfold atlasMarkerChecks
    rw [if_neg h3, if_neg (by simp [hctx]), if_pos hwf]
    by_cases hu : strContains (payload.conversation_context.getD "") "ATLAS_PROMPT_UNLOCKED" = true
    · rw [if_neg (by simp [hu])]
      by_cases hp : pyStrip (payload.tool_info.plan.getD "") = ""
      · rw [if_pos (Or.inr hp)]
        simp [mcpBlock, hu, hp]
      · rw [if_neg ?_]
        · simp [allowD, hu, hp]
        · intro hor
          rcases hor with he | he
          · exact hp (by simp [he, pyStrip, stripList])
          · exact hp he
    · rw [if_pos (by simpa using hu)]
      simp [mcpBlock, hu]

/-- Witness for the amended C5: a fresh session calling `read_file` without
`begin_session` is blocked with the session-not-initialized message, and a
`write_file` with both markers and a real plan hash is allowed. -/
theorem mcp_session_and_plan_gate_witness :
    ((mcpAllowlistMain {}
        { tool_info := { tool_name := some "mcp_atlas-gate-mcp_read_file" } }).exit = 2 ∧
     (mcpAllowlistMain {}
        { tool_info := { tool_name := some "mcp_atlas-gate-mcp_read_file" } }).err.head? =
        some "BLOCKED: ATLAS session not initialized") ∧
    (mcpAllowlistMain {}
      { tool_info := { tool_name := some "mcp_atlas-gate-mcp_write_file",
                       plan := some "abc123" },
        conversation_context := some "ATLAS_SESSION_OK ATLAS_PROMPT_UNLOCKED" }).exit = 0 := by
  constructor
  · exact (mcp_session_and_plan_gate {}
      { tool_info := { tool_name := some "mcp_atlas-gate-mcp_read_file" } }
      (by decide) (Or.inl rfl) (by decide)).1 (by decide)
  · exact ((mcp_session_and_plan_gate {}
      { tool_info := { tool_name := some "mcp_atlas-gate-mcp_write_file",
                       plan := some "abc123" },
        conversation_context := some "ATLAS_SESSION_OK ATLAS_PROMPT_UNLOCKED" }
      (by decide) (Or.inl rfl) (by decide)).2 (by decide) (by decide)).mpr
      (by refine ⟨by decide, by decide⟩)

/-- C9: when `policy.mcp_tool_allowlist` is absent or empty, the allowlist
check imposes nothing: for every non-empty resolved tool name the hook's
decision is exactly the conversation-context marker checks — no
MCP-prefix requirement is applied. -/
theorem empty_allowlist_imposes_nothing
    (policy : Policy) (payload : Payload)
    (h0 : policy.mcp_tool_allowlist = [])
    (h1 : resolveToolName payload.tool_info ≠ "") :
    mcpAllowlistMain policy payload =
      atlasMarkerChecks (resolveToolName payload.tool_info)
        (payload.conversation_context.getD "") (payload.tool_info.plan.getD "") := by
  unfold mcpAllowlistMain
  rw [if_neg h1, if_neg]
  simp [h0]

/-- Witness for C9: with an empty allowlist, a bare tool name without the
MCP prefix reaches the marker checks (and is blocked only by them). -/
theorem empty_allowlist_imposes_nothing_witness :
    mcpAllowlistMain {} { tool_info := { tool_name := some "my_custom_tool" } } =
      atlasMarkerChecks
        (resolveToolName ({ tool_name := some "my_custom_tool" } : ToolInfo)) "" "" :=
  empty_allowlist_imposes_nothing {}
    { tool_info := { tool_name := some "my_custom_tool" } } rfl (by decide)

/-- C6: for every `pre_write_code` edit to a non-skipped (non-test,
non-config) file with non-empty old and new content, a drop in the
executable-line count makes `pre_write_code_policy` block (exit 2) — in
particular when the old count is positive and the new count is zero while
the new content is non-empty, since an all-whitespace replacement trips the
wholesale-deletion check instead.  Holds for every regex semantics and
every policy document. -/
theorem code_policy_blocks_logic_reduction
    (research : String → String → String → Option ReMatch)
    (refinditer : String → String → String → List ReMatch)
    (policy : Policy) (payload : Payload) (e : Edit)
    (hmem : e ∈ payload.tool_info.edits)
    (hskip : skipEdit e = false)
    (hold : e.old_string.getD "" ≠ "")
    (hnew : e.new_string.getD "" ≠ "")
    (hlt : count_exec (e.new_string.getD "") < count_exec (e.old_string.getD "")) :
    (codePolicyMain research refinditer policy payload).exit = 2 := by
  have hpos : 0 < count_exec (e.old_string.getD "") :=
    Nat.lt_of_le_of_lt (Nat.zero_le _) hlt
  have hlogic : logicViolations (e.old_string.getD "") (e.new_string.getD "")
      (e.path.getD "unknown") ≠ [] := by
    by_cases hn : pyStrip (e.new_string.getD "") = ""
    · have hm2 : ("HARD FAIL: Code completely removed in " ++ e.path.getD "unknown") ∈
          logicViolations (e.old_string.getD "") (e.new_string.getD "")
            (e.path.getD "unknown") := by
        unfold logicViolations
        refine List.mem_append.mpr (Or.inr ?_)
        rw [if_pos ⟨pyStrip_ne_empty_of_count_exec_pos hpos, hn⟩]
        exact List.mem_singleton.mpr rfl
      exact List.ne_nil_of_mem hm2
    · have hm2 : ("HARD FAIL: Logic removal in " ++ e.path.getD "unknown" ++ " (" ++
          toString (count_exec (e.old_string.getD "")) ++ " → " ++
          toString (count_exec (e.new_string.getD "")) ++ " lines)") ∈
          logicViolations (e.old_string.getD "") (e.new_string.getD "")
            (e.path.getD "unknown") := by
        unfold logicViolations
        refine List.mem_append.mpr (Or.inl ?_)
        rw [if_pos ⟨hpos, hlt, hn⟩]
        exact List.mem_singleton.mpr rfl
      exact List.ne_nil_of_mem hm2
  have hedit : editViolations research refinditer policy.prohibited_patterns.flatten e ≠ [] := by
    obtain ⟨b, hb⟩ := List.exists_mem_of_ne_nil _ hlogic
    have hb2 : b ∈ editViolations research refinditer policy.prohibited_patterns.flatten e := by
      unfold editViolations
      exact List.mem_append.mpr (Or.inl (List.mem_append.mpr (Or.inl
        (List.mem_append.mpr (Or.inr hb)))))
    exact List.ne_nil_of_mem hb2
  have hviol : (payload.tool_info.edits.flatMap fun e2 =>
      if skipEdit e2 then [] else
        editViolations research refinditer policy.prohibited_patterns.flatten e2) ≠ [] := by
    refine flatMap_ne_nil_of_mem hmem ?_
    rw [hskip]
    simpa using hedit
  unfold codePolicyMain
  rw [if_neg (by simpa [List.isEmpty_iff] using hviol)]

/-- Witness for C6: replacing a two-executable-line Python function body
with a single `def` line is blocked. -/
theorem code_policy_blocks_logic_reduction_witness :
    (skipEdit ⟨some "src/app.py", some "def f():\n    return compute()\n",
        some "def f():\n"⟩ = false) ∧
    count_exec "def f():\n" < count_exec "def f():\n    return compute()\n" ∧
    (codePolicyMain (fun _ _ _ => none) (fun _ _ _ => []) {}
      { tool_info := { edits := [⟨some "src/app.py",
          some "def f():\n    return compute()\n", some "def f():\n"⟩] } }).exit = 2 := by
  refine ⟨by decide, by decide, ?_⟩
  exact code_policy_blocks_logic_reduction (fun _ _ _ => none) (fun _ _ _ => []) {}
    { tool_info := { edits := [⟨some "src/app.py",
        some "def f():\n    return compute()\n", some "def f():\n"⟩] } }
    ⟨some "src/app.py", some "def f():\n    return compute()\n", some "def f():\n"⟩
    (List.mem_singleton.mpr rfl) (by decide) (by decide) (by decide) (by decide)

/-- C7: after `init` stores the hash of plan `P`, a `verify` on any truthy
plan whose hash differs is rejected with reason
`Plan has been modified since execution started`, reporting both the stored
(expected) and the current hash; and a `verify` on any plan whose hash
equals the stored one is allowed. -/
theorem plan_immutability_verify
    (sha : String → String) (P P2 P3 : PyValue)
    (hP : pyTruthy P = true) (hP2 : pyTruthy P2 = true) (hP3 : pyTruthy P3 = true)
    (hne : compute_plan_hash sha P2 ≠ compute_plan_hash sha P)
    (heq : compute_plan_hash sha P3 = compute_plan_hash sha P) :
    (planMain sha none ⟨some P, some "init", 0⟩).exit = 0 ∧
    (planMain sha none ⟨some P, some "init", 0⟩).stored =
      some (compute_plan_hash sha P) ∧
    (planMain sha (planMain sha none ⟨some P, some "init", 0⟩).stored
        ⟨some P2, some "verify", 0⟩).status = "rejected" ∧
    (planMain sha (planMain sha none ⟨some P, some "init", 0⟩).stored
        ⟨some P2, some "verify", 0⟩).reason =
      some "Plan has been modified since execution started" ∧
    (planMain sha (planMain sha none ⟨some P, some "init", 0⟩).stored
        ⟨some P2, some "verify", 0⟩).expected_hash =
      some (compute_plan_hash sha P) ∧
    (planMain sha (planMain sha none ⟨some P, some "init", 0⟩).stored
        ⟨some P2, some "verify", 0⟩).current_hash =
      some (compute_plan_hash sha P2) ∧
    (planMain sha (planMain sha none ⟨some P, some "init", 0⟩).stored
        ⟨some P3, some "verify", 0⟩).status = "allowed" ∧
    (planMain sha (planMain sha none ⟨some P, some "init", 0⟩).stored
        ⟨some P3, some "verify", 0⟩).exit = 0 := by
  have hinit : planMain sha none ⟨some P, some "init", 0⟩ =
      ⟨"allowed", none, some "plan_hash_initialized", some (compute_plan_hash sha P),
        none, none, none, some 0, 0, some (compute_plan_hash sha P)⟩ := by
    unfold planMain
    simp [hP]
  rw [hinit]
  have hver2 : planMain sha (some (compute_plan_hash sha P)) ⟨some P2, some "verify", 0⟩ =
      ⟨"rejected", some "Plan has been modified since execution started", none, none,
        none, some (compute_plan_hash sha P), some (compute_plan_hash sha P2),
        some 0, 1, some (compute_plan_hash sha P)⟩ := by
    unfold planMain
    simp [hP2, hne]
  have hver3 : planMain sha (some (compute_plan_hash sha P)) ⟨some P3, some "verify", 0⟩ =
      ⟨"allowed", none, none, none, some (compute_plan_hash sha P3), none, none,
        some 0, 0, some (compute_plan_hash sha P)⟩ := by
    unfold planMain
    simp [hP3, heq]
  exact ⟨rfl, rfl, by rw [hver2], by rw [hver2], by rw [hver2], by rw [hver2],
    by rw [hver3], by rw [hver3]⟩

/-- Witness for C7 with the identity standing in for `sha256`: init on the
plan `"a"`, verify on `"b"` (rejected, both hashes reported), verify on
`"a"` (allowed). -/
theorem plan_immutability_verify_witness :
    (planMain (fun s => s) none ⟨some (.pstr "a"), some "init", 0⟩).exit = 0 ∧
    (planMain (fun s => s) none ⟨some (.pstr "a"), some "init", 0⟩).stored =
      some (compute_plan_hash (fun s => s) (.pstr "a")) ∧
    (planMain (fun s => s)
        (planMain (fun s => s) none ⟨some (.pstr "a"), some "init", 0⟩).stored
        ⟨some (.pstr "b"), some "verify", 0⟩).status = "rejected" ∧
    (planMain (fun s => s)
        (planMain (fun s => s) none ⟨some (.pstr "a"), some "init", 0⟩).stored
        ⟨some (.pstr "b"), some "verify", 0⟩).reason =
      some "Plan has been modified since execution started" ∧
    (planMain (fun s => s)
        (planMain (fun s => s) none ⟨some (.pstr "a"), some "init", 0⟩).stored
        ⟨some (.pstr "b"), some "verify", 0⟩).expected_hash =
      some (compute_plan_hash (fun s => s) (.pstr "a")) ∧
    (planMain (fun s => s)
        (planMain (fun s => s) none ⟨some (.pstr "a"), some "init", 0⟩).stored
        ⟨some (.pstr "b"), some "verify", 0⟩).current_hash =
      some (compute_plan_hash (fun s => s) (.pstr "b")) ∧
    (planMain (fun s => s)
        (planMain (fun s => s) none ⟨some (.pstr "a"), some "init", 0⟩).stored
        ⟨some (.pstr "a"), some "verify", 0⟩).status = "allowed" ∧
    (planMain (fun s => s)
        (planMain (fun s => s) none ⟨some (.pstr "a"), some "init", 0⟩).stored
        ⟨some (.pstr "a"), some "verify", 0⟩).exit = 0 := by
  have h := plan_immutability_verify (fun s => s) (.pstr "a") (.pstr "b") (.pstr "a")
    (by decide) (by decide) (by decide)
    (by intro hcontr; exact absurd hcontr (by decide)) rfl
  exact h

/-- Strict-key-order-or-equal relation on serialised dict entries; it is
antisymmetric, which pins down the sorted form of a duplicate-free entry
list uniquely. -/
def keyStrict (a b : String × String) : Prop := a.1 < b.1 ∨ a = b

instance : IsAntisymm (String × String) keyStrict := by
  constructor
  intro a b hab hba
  rcases hab with h1 | h1
  · rcases hba with h2 | h2
    · exact absurd h2 (not_lt_of_gt h1)
    · exact h2.symm
  · exact h1

/-- With duplicate-free keys, `sortPairs` output is pairwise `keyStrict`. -/
theorem sortPairs_pairwise_keyStrict {l : List (String × String)}
    (hnd : (l.map Prod.fst).Nodup) : (sortPairs l).Pairwise keyStrict := by
  have hs : (sortPairs l).Pairwise pairKeyLe := List.sorted_insertionSort pairKeyLe l
  have hperm : (sortPairs l).Perm l := List.perm_insertionSort pairKeyLe l
  have hnd2 : ((sortPairs l).map Prod.fst).Nodup := ((hperm.map Prod.fst).nodup_iff).mpr hnd
  have hne : (sortPairs l).Pairwise (fun a b => a.1 ≠ b.1) := List.pairwise_map.mp hnd2
  exact (hs.and hne).imp (fun h => Or.inl (lt_of_le_of_ne h.1 h.2))

/-- Sorting by key is invariant under permutation when keys are
duplicate-free. -/
theorem sortPairs_eq_of_perm {l1 l2 : List (String × String)}
    (hp : l1.Perm l2) (hnd : (l1.map Prod.fst).Nodup) :
    sortPairs l1 = sortPairs l2 := by
  have hnd2 : (l2.map Prod.fst).Nodup := ((hp.map Prod.fst).nodup_iff).mp hnd
  have h12 : (sortPairs l1).Perm (sortPairs l2) :=
    (List.perm_insertionSort pairKeyLe l1).trans
      (hp.trans (List.perm_insertionSort pairKeyLe l2).symm)
  exact List.eq_of_perm_of_sorted h12
    (sortPairs_pairwise_keyStrict hnd) (sortPairs_pairwise_keyStrict hnd2)

/-- `dumpsPairs` is the obvious map. -/
theorem dumpsPairs_eq_map (d : List (String × PyValue)) :
    dumpsPairs d = d.map (fun kv => (kv.1, dumpsSorted kv.2)) := by
  induction d with
  | nil => simp [dumpsPairs]
  | cons kv rest ih => simp [dumpsPairs, ih]

/-- C10: `compute_plan_hash` serialises dict plans with sorted keys, so two
dict plans that are permutations of each other with duplicate-free keys hash
identically — and therefore a `verify` on the key-reordered plan is allowed
right after `init` on the original. -/
theorem plan_hash_key_order_invariant
    (sha : String → String) (d1 d2 : List (String × PyValue))
    (hperm : d1.Perm d2) (hnd : (d1.map Prod.fst).Nodup) (hne : d1 ≠ []) :
    compute_plan_hash sha (.pdict d1) = compute_plan_hash sha (.pdict d2) ∧
    (planMain sha (planMain sha none ⟨some (.pdict d1), some "init", 0⟩).stored
        ⟨some (.pdict d2), some "verify", 0⟩).status = "allowed" ∧
    (planMain sha (planMain sha none ⟨some (.pdict d1), some "init", 0⟩).stored
        ⟨some (.pdict d2), some "verify", 0⟩).exit = 0 := by
  have hp2 : (dumpsPairs d1).Perm (dumpsPairs d2) := by
    rw [dumpsPairs_eq_map, dumpsPairs_eq_map]
    exact hperm.map _
  have hnd1 : ((dumpsPairs d1).map Prod.fst).Nodup := by
    rw [dumpsPairs_eq_map, List.map_map]
    have hcomp : (Prod.fst ∘ fun kv : String × PyValue => (kv.1, dumpsSorted kv.2)) =
        Prod.fst := by
      funext kv
      rfl
    rw [hcomp]
    exact hnd
  have hsort := sortPairs_eq_of_perm hp2 hnd1
  have hser : dumpsSorted (.pdict d1) = dumpsSorted (.pdict d2) := by
    rw [dumpsSorted, dumpsSorted, hsort]
  have hhash : compute_plan_hash sha (.pdict d1) = compute_plan_hash sha (.pdict d2) := by
    unfold compute_plan_hash
    rw [show serializePlan (.pdict d1) = dumpsSorted (.pdict d1) from rfl,
      show serializePlan (.pdict d2) = dumpsSorted (.pdict d2) from rfl, hser]
  have hne2 : d2 ≠ [] := by
    intro h
    exact hne (List.Perm.eq_nil (h ▸ hperm))
  have ht1 : pyTruthy (.pdict d1) = true := by
    simp [pyTruthy, hne]
  have ht2 : pyTruthy (.pdict d2) = true := by
    simp [pyTruthy, hne2]
  have hinit : planMain sha none ⟨some (.pdict d1), some "init", 0⟩ =
      ⟨"allowed", none, some "plan_hash_initialized",
        some (compute_plan_hash sha (.pdict d1)), none, none, none, some 0, 0,
        some (compute_plan_hash sha (.pdict d1))⟩ := by
    unfold planMain
    simp [ht1]
  refine ⟨hhash, ?_, ?_⟩ <;>
    · rw [hinit]
      unfold planMain
      simp [ht2, hhash.symm]

/-- A two-entry dict plan and its key-reordered permutation. -/
def wPlanA : List (String × PyValue) := [("b", .pint 1), ("a", .pstr "x")]

/-- The reordering of `wPlanA`. -/
def wPlanB : List (String × PyValue) := [("a", .pstr "x"), ("b", .pint 1)]

/-- Witness for C10 at the concrete reordered dicts. -/
theorem plan_hash_key_order_invariant_witness :
    compute_plan_hash (fun s => s) (.pdict wPlanA) =
      compute_plan_hash (fun s => s) (.pdict wPlanB) ∧
    (planMain (fun s => s)
        (planMain (fun s => s) none ⟨some (.pdict wPlanA), some "init", 0⟩).stored
        ⟨some (.pdict wPlanB), some "verify", 0⟩).status = "allowed" ∧
    (planMain (fun s => s)
        (planMain (fun s => s) none ⟨some (.pdict wPlanA), some "init", 0⟩).stored
        ⟨some (.pdict wPlanB), some "verify", 0⟩).exit = 0 :=
  plan_hash_key_order_invariant (fun s => s) wPlanA wPlanB
    (by unfold wPlanA wPlanB; exact List.Perm.swap _ _ _)
    (by decide) (by simp [wPlanA])

/-- The first stderr string begins with `BLOCKED:`. -/
def blockedFirst (d : Decision) : Prop :=
  ∃ s, d.err.head? = some s ∧ startsWithStr s "BLOCKED:" = true

/-- The exit-code contract of C8 for one decision: exit ∈ {0, 1, 2}, and
exit 2 implies a leading `BLOCKED:` stderr line. -/
def decisionContractOk (d : Decision) : Prop :=
  (d.exit = 0 ∨ d.exit = 1 ∨ d.exit = 2) ∧ (d.exit = 2 → blockedFirst d)

/-- Prefixes extend along appends. -/
theorem startsWith_append_left {a p : String} (b : String)
    (h : startsWithStr a p = true) : startsWithStr (a ++ b) p = true := by
  unfold startsWithStr at *
  rw [List.isPrefixOf_iff_prefix] at *
  exact h.trans (List.prefix_append a.toList b.toList)

/-- `allowD` satisfies the contract. -/
theorem contract_allowD : decisionContractOk allowD :=
  ⟨Or.inl rfl, fun h => absurd h (by decide)⟩

/-- `mcpBlock` satisfies the contract. -/
theorem contract_mcpBlock (msg : String) (details : List String) :
    decisionContractOk (mcpBlock msg details) :=
  ⟨Or.inr (Or.inr rfl), fun _ => ⟨"BLOCKED: " ++ msg, rfl, startsWith_blocked_append msg⟩⟩

/-- `validateAtlasGatePayload` only ever blocks through `mcpBlock`. -/
theorem validate_atlas_gate_contract (tool_name : String) (t : ToolInfo) (d : Decision)
    (h : validateAtlasGatePayload tool_name t = some d) : decisionContractOk d := by
  unfold validateAtlasGatePayload at h
  rcases hreq : atlasGateRequired tool_name with _ | req <;> rw [hreq] at h
  · rw [Option.some_inj] at h
    rw [← h]
    exact contract_mcpBlock _ _
  · dsimp only at h
    split_ifs at h with hm
    · rw [Option.some_inj] at h
      rw [← h]
      exact contract_mcpBlock _ _
    · rcases hf : req.find? (fun f => match toolFieldGet t f with
          | none => true
          | some v => pyStrip v = "") with _ | f <;> rw [hf] at h
      · exact absurd h (by simp)
      · rw [Option.some_inj] at h
        rw [← h]
        exact contract_mcpBlock _ _

/-- C8: for every embedded hook and every parsed intercept payload, the
exit code is 0, 1 or 2, and an exit-2 block always writes a first stderr
line beginning with `BLOCKED:`.  (The two JSON-rejection hooks,
`pre_session_state_enforcement` and `pre_plan_immutability_enforcement`,
never exit 2 at all; the prompt gate always exits 0.) -/
theorem hooks_exit_code_contract :
    (∀ (policy : Policy) (payload : Payload),
      decisionContractOk (killSwitchMain policy payload)) ∧
    (∀ (policy : Policy) (payload : Payload),
      decisionContractOk (blocklistMain policy payload)) ∧
    (∀ (rf : String → String → String → List ReMatch) (policy : Policy) (payload : Payload),
      decisionContractOk (escapeDetectionMain rf policy payload)) ∧
    (∀ (rs : String → String → String → Option ReMatch)
       (rf : String → String → String → List ReMatch) (policy : Policy) (payload : Payload),
      decisionContractOk (codePolicyMain rs rf policy payload)) ∧
    (∀ (policy : Policy) (payload : Payload),
      decisionContractOk (mcpAllowlistMain policy payload)) ∧
    (∀ (policy : Policy) (payload : Payload),
      decisionContractOk (mcpAtlasGateMain policy payload)) ∧
    (∀ (policy : Policy) (payload : Payload),
      decisionContractOk (fsAtlasEnforcementMain policy payload)) ∧
    (∀ (extract : String → Option String) (payload : Payload),
      (promptGateMain extract payload).exit = 0) ∧
    (∀ (stored toolName : Option String),
      (sessionMain stored toolName).exit = 0 ∨ (sessionMain stored toolName).exit = 1) ∧
    (∀ (sha : String → String) (stored : Option String) (input : PlanInput),
      (planMain sha stored input).exit = 0 ∨ (planMain sha stored input).exit = 1) := by
  refine ⟨?_, ?_, ?_, ?_, ?_, ?_, ?_, ?_, ?_, ?_⟩
  · intro policy payload
    unfold killSwitchMain
    split_ifs
    · exact ⟨Or.inr (Or.inr rfl), fun _ => ⟨_, rfl, by decide⟩⟩
    · refine ⟨Or.inr (Or.inr rfl), fun _ => ⟨_, rfl, ?_⟩⟩
      exact startsWith_append_left _ (startsWith_append_left _ (by decide))
    · exact contract_allowD
  · intro policy payload
    unfold blocklistMain
    dsimp only
    split_ifs
    · refine ⟨Or.inr (Or.inr rfl), fun _ => ⟨_, rfl, ?_⟩⟩
      exact startsWith_append_left _ (startsWith_append_left _ (by decide))
    · exact contract_allowD
  · intro rf policy payload
    unfold escapeDetectionMain
    dsimp only
    split_ifs
    · exact ⟨Or.inr (Or.inr rfl), fun _ => ⟨_, rfl, by decide⟩⟩
    · exact contract_allowD
    · exact ⟨Or.inr (Or.inr rfl), fun _ => ⟨_, rfl, by decide⟩⟩
    · exact contract_allowD
  · intro rs rf policy payload
    unfold codePolicyMain
    dsimp only
    split_ifs
    · exact contract_allowD
    · exact ⟨Or.inr (Or.inr rfl), fun _ => ⟨_, rfl, by decide⟩⟩
  · intro policy payload
    unfold mcpAllowlistMain atlasMarkerChecks
    dsimp only
    split_ifs <;> first
      | exact contract_allowD
      | exact contract_mcpBlock _ _
  · intro policy payload
    unfold mcpAtlasGateMain
    dsimp only
    rcases hv : validateAtlasGatePayload (rawToolName payload.tool_info) payload.tool_info
        with _ | d <;> dsimp only <;> split_ifs <;> first
      | exact contract_allowD
      | exact contract_mcpBlock _ _
      | exact validate_atlas_gate_contract _ _ d hv
  · intro policy payload
    unfold fsAtlasEnforcementMain
    dsimp only
    split_ifs
    · exact ⟨Or.inr (Or.inr rfl), fun _ => ⟨_, rfl, by decide⟩⟩
    · exact contract_allowD
    · exact ⟨Or.inr (Or.inr rfl), fun _ => ⟨_, rfl, by decide⟩⟩
  · intro extract payload
    unfold promptGateMain
    dsimp only
    split_ifs
    · rcases extract (payload.tool_info.prompt.getD "") with _ | r <;> rfl
    · rfl
  · intro stored toolName
    unfold sessionMain
    dsimp only
    split_ifs <;> simp
  · intro sha stored input
    unfold planMain
    dsimp only
    split_ifs <;> try simp
    rcases stored with _ | sh
    · simp
    · by_cases hc : compute_plan_hash sha (input.plan.getD PyValue.pnone) = sh <;>
        simp [hc]

/-- Witness for C8: the kill switch under a locked policy exits 2 and its
first stderr line begins with `BLOCKED:`. -/
theorem hooks_exit_code_contract_witness :
    (killSwitchMain lockedPolicy {}).exit = 2 ∧ blockedFirst (killSwitchMain lockedPolicy {}) := by
  have h := (hooks_exit_code_contract.1 lockedPolicy {}).2 (by decide)
  exact ⟨by decide, h⟩
